import Mathlib

/-!
# Injection informer generator (`cmd/injection-gen/generators/informer.go`)

A shallow embedding of the generator that emits the informer-injection file
for one API type, and the properties of its naming and context-building
logic.

Conventions of the embedding:

* a Go `map[string]V` is an association list read with `mapIndex`, the
  two-valued index expression `v, ok := m[key]`;
* a `*types.Type` is a `TypePtr`: the address of the descriptor together with
  the descriptor stored there.  Pointer comparison compares addresses only;
* receivers, function values and interface values are assumed non-nil, so a
  Go method is a total Lean function;
* logging through `klog` has no effect on results or on the destination
  writer and is left out;
* strings are sequences of characters; on ASCII identifiers this coincides
  with Go's byte indexing.
-/

namespace Generators

/-! ## Data model -/

/-- Go maps with string keys, as association lists. -/
abbrev GoMap (V : Type) := List (String × V)

/-- The index expression `v, ok := m[key]`: `some v` when the key is present. -/
def mapIndex {V : Type} (m : GoMap V) (key : String) : Option V :=
  match m with
  | [] => none
  | (k, v) :: rest => if k = key then some v else mapIndex rest key

/-- The keys of a map. -/
def mapKeys {V : Type} (m : GoMap V) : List String :=
  m.map Prod.fst

/-- The identity of a type, `types.Name`: package path and base name. -/
structure TypeName where
  Package : String
  Name : String
  deriving DecidableEq, Repr

/-- The part of a `types.Type` descriptor the generator reads. -/
structure GoType where
  Name : TypeName
  CommentLines : List String
  SecondClosestCommentLines : List String
  deriving DecidableEq, Repr

/-- A `*types.Type`: where the descriptor lives, and the descriptor. -/
structure TypePtr where
  addr : Nat
  elem : GoType
  deriving DecidableEq, Repr

/-- The interface `namer.Namer`: anything with a `Name` method. -/
structure Namer where
  Name : TypePtr → String

/-- The map type `namer.NameSystems`. -/
abbrev NameSystems := GoMap Namer

/-- ExceptionNamer allows you specify exceptional cases with exact names. -/
structure ExceptionNamer where
  Exceptions : GoMap String
  KeyFunc : TypePtr → String
  Delegate : Namer

/-- Name provides the requested name for a type. -/
def ExceptionNamer.Name (n : ExceptionNamer) (t : TypePtr) : String :=
  let key := n.KeyFunc t
  match mapIndex n.Exceptions key with
  | some exception => exception
  | none => n.Delegate.Name t

/-- An `*ExceptionNamer` used as a `namer.Namer`. -/
def ExceptionNamer.toNamer (n : ExceptionNamer) : Namer :=
  ⟨n.Name⟩

/-! ## Collaborators outside this file -/

/-- Modelled from the spec: `namer.IC` of k8s.io/gengo (not under src/), the
"capitalized" finalizer: the first character is upper-cased (ASCII letters),
the rest kept. -/
def IC (s : String) : String :=
  match s.data with
  | [] => s
  | c :: rest => String.mk (c.toUpper :: rest)

/-- Modelled from the spec: `strings.ToLower`, the "lowercase" finalizer of the
all-lowercase plural namer (ASCII letters). -/
def ToLower (s : String) : String :=
  String.mk (s.data.map Char.toLower)

/-- Modelled from the spec: the plural namer of k8s.io/gengo/namer (not under
src/): "standard pluralization rules, with a static exception map for
irregular nouns", followed by a finalizer that fixes the letter case. -/
structure pluralNamer where
  exceptions : GoMap String
  finalize : String → String

/-- Modelled from the spec: the consonants consulted before a final `y`. -/
def isConsonant (c : Char) : Bool :=
  "bcdfghjklmnpqrstvwxyz".data.contains c

/-- Modelled from the spec: the "standard pluralization rules" of the plural
namer: `-es` after `s`, `x`, `z`, `ch`, `sh`; `-ies` for consonant + `y`;
`-s` otherwise.  Names shorter than two characters are left as they are. -/
def pluralize (singular : String) : String :=
  match singular.data.reverse with
  | [] => singular
  | [_] => singular
  | last :: sl :: front =>
    if last = 's' ∨ last = 'x' ∨ last = 'z' then singular ++ "es"
    else if last = 'y' then
      if isConsonant sl then String.mk (front.reverse ++ [sl]) ++ "ies"
      else singular ++ "s"
    else if last = 'h' then
      if sl = 'c' ∨ sl = 's' then singular ++ "es" else singular ++ "s"
    else singular ++ "s"

/-- Modelled from the spec: `pluralNamer.Name`: the type's base name is looked
up in the exception map; a hit is returned through the finalizer, otherwise
the pluralized base name is. -/
def pluralNamer.Name (r : pluralNamer) (t : TypePtr) : String :=
  let singular := t.elem.Name.Name
  match mapIndex r.exceptions singular with
  | some plural => r.finalize plural
  | none => r.finalize (pluralize singular)

/-- A `*pluralNamer` used as a `namer.Namer`. -/
def pluralNamer.toNamer (r : pluralNamer) : Namer :=
  ⟨r.Name⟩

/-- Modelled from the spec: `namer.NewPublicPluralNamer`, the "standard
capitalized-pluralization algorithm". -/
def NewPublicPluralNamer (exceptions : GoMap String) : pluralNamer :=
  ⟨exceptions, IC⟩

/-- Modelled from the spec: `namer.NewAllLowercasePluralNamer`, the
"lowercase-plural naming" strategy. -/
def NewAllLowercasePluralNamer (exceptions : GoMap String) : pluralNamer :=
  ⟨exceptions, ToLower⟩

/-- Modelled from the spec: the Tag Set parsed from a type's comment lines;
`NonNamespaced` records that the non-namespaced directive is present. -/
structure Tags where
  NonNamespaced : Bool
  deriving DecidableEq, Repr

/-- The `namer.ImportTracker` held by the generator. -/
structure ImportTracker where
  ImportLines : List String

/-- The lookups of `types.Universe`; each returns a `*types.Type`. -/
structure Universe where
  Type_ : TypeName → TypePtr
  Function : TypeName → TypePtr
  Variable : TypeName → TypePtr

/-- The part of `generator.Context` the generator reads. -/
structure Context where
  Namers : NameSystems
  Universe : Universe

/-- The values stored in the template arguments, a `map[string]interface{}`. -/
inductive Value where
  | ptr (t : TypePtr)
  | str (s : String)
  | bool (b : Bool)
  deriving DecidableEq, Repr

/-- The destination `io.Writer`: the text written to it so far. -/
abbrev Writer := String

/-- The state of a `generator.SnippetWriter`: the destination, the context,
the delimiters and the first error met. -/
structure SnippetWriter (ε : Type) where
  w : Writer
  context : Context
  left : String
  right : String
  err : Option ε

/-- The constructor `generator.NewSnippetWriter`; it writes nothing. -/
def NewSnippetWriter {ε : Type} (w : Writer) (c : Context) (left right : String) :
    SnippetWriter ε :=
  ⟨w, c, left, right, none⟩

/-- The method `SnippetWriter.Error`. -/
def SnippetWriter.Error {ε : Type} (s : SnippetWriter ε) : Option ε :=
  s.err

/-- What the generator takes from outside this file: the tag parser, the
version's `String` method, two namer constructors, the template engine behind
`SnippetWriter.Do`, and the package-level names of well-known symbols. -/
structure Env (ε : Type) where
  ParseClientGenTags : List String → Except ε Tags
  VersionString : String → String
  NewRawNamer : String → ImportTracker → Namer
  NewTagOverrideNamer : String → Namer → Namer
  Do : SnippetWriter ε → String → GoMap Value → SnippetWriter ε
  apiScheme : TypeName
  cacheIndexers : TypeName
  cacheListWatch : TypeName
  cacheMetaNamespaceIndexFunc : TypeName
  cacheNamespaceIndex : TypeName
  cacheNewSharedIndexInformer : TypeName
  cacheSharedIndexInformer : TypeName
  listOptions : TypeName
  metav1NamespaceAll : TypeName
  runtimeObject : TypeName
  timeDuration : TypeName
  v1ListOptions : TypeName
  watchInterface : TypeName

/-! ## The generator -/

/-- The `clientgentypes.GroupVersion` of the generated group. -/
structure GroupVersion where
  Group : String
  Version : String

/-- The generator bound to one type (`injectionGenerator`). -/
structure injectionGenerator where
  outputPackage : String
  groupPkgName : String
  groupVersion : GroupVersion
  groupGoName : String
  typeToGenerate : TypePtr
  imports : ImportTracker
  clientSetPackage : String
  internalInterfacesPackage : String
  typedInformerPackage : String
  groupInformerFactoryPackage : String

/-- `Filter`: pointer comparison of `t` with the bound type. -/
def Filter (g : injectionGenerator) (_c : Context) (t : TypePtr) : Bool :=
  decide (t.addr = g.typeToGenerate.addr)

/-- The table `pluralExceptions` of `Namers`. -/
def pluralExceptions : GoMap String :=
  [("Endpoints", "Endpoints")]

/-- The local `lowercaseNamer` of `Namers`. -/
def lowercaseNamer : pluralNamer :=
  NewAllLowercasePluralNamer pluralExceptions

/-- The local `publicPluralNamer` of `Namers`: an empty exception table (its
only content is a commented-out example), the key function, and the public
plural namer as delegate. -/
def publicPluralNamer : ExceptionNamer where
  Exceptions := []
  KeyFunc := fun t => t.elem.Name.Package ++ "." ++ t.elem.Name.Name ++ t.elem.Name.Name
  Delegate := (NewPublicPluralNamer pluralExceptions).toNamer

/-- `Namers`: the name systems this generator contributes. -/
def Namers {ε : Type} (env : Env ε) (g : injectionGenerator) (_c : Context) : NameSystems :=
  [("raw", env.NewRawNamer g.outputPackage g.imports),
   ("publicPlural", publicPluralNamer.toNamer),
   ("resource", env.NewTagOverrideNamer "resourceName" lowercaseNamer.toNamer)]

/-- `Imports`: the import lines accumulated by the tracker. -/
def Imports (g : injectionGenerator) (_c : Context) : List String :=
  [] ++ g.imports.ImportLines

/-- The fixed template `injectionInformer`. -/
def injectionInformer : String :=
  "\n" ++
  "func init() \x7b\n" ++
  "\t\x7b\x7b.injectionRegisterInformer|raw\x7d\x7d(withInformer)\n" ++
  "\x7d\n" ++
  "\n" ++
  "// key is used for associating the Informer inside the context.Context.\n" ++
  "type Key struct\x7b\x7d\n" ++
  "\n" ++
  "func withInformer(ctx context.Context) (context.Context, \x7b\x7b.controllerInformer|raw\x7d\x7d) \x7b\n" ++
  "\tf := \x7b\x7b.factoryGet|raw\x7d\x7d(ctx)\n" ++
  "\tinf := f.\x7b\x7b.group\x7d\x7d().\x7b\x7b.version\x7d\x7d().\x7b\x7b.type|publicPlural\x7d\x7d()\n" ++
  "\treturn context.WithValue(ctx, Key\x7b\x7d, inf), inf.Informer()\n" ++
  "\x7d\t\n" ++
  "\t\t\n" ++
  "// Get extracts the typed informer from the context.\n" ++
  "func Get(ctx context.Context) \x7b\x7b.informersTypedInformer|raw\x7d\x7d \x7b\n" ++
  "\tuntyped := ctx.Value(Key\x7b\x7d)\n" ++
  "\tif untyped == nil \x7b\n" ++
  "\t\treturn nil\n" ++
  "\t\x7d\n" ++
  "\treturn untyped.(\x7b\x7b.informersTypedInformer|raw\x7d\x7d)\n" ++
  "\x7d\n"

/-- The template arguments `m` that `GenerateType` builds once the tags are
parsed. -/
def templateArgs {ε : Type} (env : Env ε) (g : injectionGenerator) (c : Context)
    (t : TypePtr) (tags : Tags) : GoMap Value :=
  let clientSetInterface := c.Universe.Type_ ⟨g.clientSetPackage, "Interface"⟩
  let informerFor := "InformerFor"
  [("apiScheme", .ptr (c.Universe.Type_ env.apiScheme)),
   ("cacheIndexers", .ptr (c.Universe.Type_ env.cacheIndexers)),
   ("cacheListWatch", .ptr (c.Universe.Type_ env.cacheListWatch)),
   ("cacheMetaNamespaceIndexFunc", .ptr (c.Universe.Function env.cacheMetaNamespaceIndexFunc)),
   ("cacheNamespaceIndex", .ptr (c.Universe.Variable env.cacheNamespaceIndex)),
   ("cacheNewSharedIndexInformer", .ptr (c.Universe.Function env.cacheNewSharedIndexInformer)),
   ("cacheSharedIndexInformer", .ptr (c.Universe.Type_ env.cacheSharedIndexInformer)),
   ("clientSetInterface", .ptr clientSetInterface),
   ("group", .str (IC g.groupGoName)),
   ("informerFor", .str informerFor),
   ("interfacesTweakListOptionsFunc",
     .ptr (c.Universe.Type_ ⟨g.internalInterfacesPackage, "TweakListOptionsFunc"⟩)),
   ("interfacesSharedInformerFactory",
     .ptr (c.Universe.Type_ ⟨g.internalInterfacesPackage, "SharedInformerFactory"⟩)),
   ("listOptions", .ptr (c.Universe.Type_ env.listOptions)),
   ("namespaceAll", .ptr (c.Universe.Type_ env.metav1NamespaceAll)),
   ("namespaced", .bool (!tags.NonNamespaced)),
   ("runtimeObject", .ptr (c.Universe.Type_ env.runtimeObject)),
   ("timeDuration", .ptr (c.Universe.Type_ env.timeDuration)),
   ("type", .ptr t),
   ("v1ListOptions", .ptr (c.Universe.Type_ env.v1ListOptions)),
   ("version", .str (IC (env.VersionString g.groupVersion.Version))),
   ("resource", .str (IC t.elem.Name.Name)),
   ("watchInterface", .ptr (c.Universe.Type_ env.watchInterface)),
   ("injectionRegisterInformer",
     .ptr (c.Universe.Function ⟨"github.com/knative/pkg/injection", "RegisterInformer"⟩)),
   ("controllerInformer",
     .ptr (c.Universe.Function ⟨"github.com/knative/pkg/controller", "Informer"⟩)),
   ("informersTypedInformer",
     .ptr (c.Universe.Function ⟨g.typedInformerPackage, t.elem.Name.Name ++ "Informer"⟩)),
   ("factoryGet", .ptr (c.Universe.Function ⟨g.groupInformerFactoryPackage, "Get"⟩))]

/-- `GenerateType`: the error returned (if any) and the destination writer
after the call. -/
def GenerateType {ε : Type} (env : Env ε) (g : injectionGenerator) (c : Context)
    (t : TypePtr) (w : Writer) : Option ε × Writer :=
  let sw : SnippetWriter ε := NewSnippetWriter w c "\x7b\x7b" "\x7d\x7d"
  match env.ParseClientGenTags (t.elem.SecondClosestCommentLines ++ t.elem.CommentLines) with
  | .error err => (some err, sw.w)
  | .ok tags =>
    let m := templateArgs env g c t tags
    let sw := env.Do sw injectionInformer m
    (sw.Error, sw.w)

/-! ## Reading the placeholders off a template -/

/-- Where the scan of a template stands: in plain text, after one opening
brace, inside an action (its text so far, reversed), or inside an action after
one closing brace. -/
inductive ScanState where
  | text
  | opening
  | action (acc : List Char)
  | closing (acc : List Char)

/-- The actions of a template: the text between each left delimiter and the
next right delimiter. -/
def scanActions : List Char → ScanState → List (List Char)
  | [], _ => []
  | c :: rest, .text =>
    if c = '\x7b' then scanActions rest .opening else scanActions rest .text
  | c :: rest, .opening =>
    if c = '\x7b' then scanActions rest (.action []) else scanActions rest .text
  | c :: rest, .action acc =>
    if c = '\x7d' then scanActions rest (.closing acc) else scanActions rest (.action (c :: acc))
  | c :: rest, .closing acc =>
    if c = '\x7d' then acc.reverse :: scanActions rest .text
    else scanActions rest (.action (c :: '\x7d' :: acc))

/-- The commands of an action's pipeline, split at `|`.  The second argument
is the command being read, in reverse. -/
def splitPipeline : List Char → List Char → List (List Char)
  | [], acc => [acc.reverse]
  | c :: rest, acc =>
    if c = '|' then acc.reverse :: splitPipeline rest [] else splitPipeline rest (c :: acc)

/-- The commands of all actions of a template, blanks removed. -/
def templateCommands (format : String) : List (List Char) :=
  (scanActions format.data .text).flatMap fun a =>
    splitPipeline (a.filter fun ch => ch ≠ ' ') []

/-- The placeholders of a template: the keys `.name` its actions read from the
arguments. -/
def templatePlaceholders (format : String) : List String :=
  (templateCommands format).filterMap fun cmd =>
    match cmd with
    | '.' :: name => some (String.mk name)
    | _ => none

/-- The functions a template pipes values through: the name systems it uses. -/
def templateFuncs (format : String) : List String :=
  (templateCommands format).filterMap fun cmd =>
    match cmd with
    | [] => none
    | '.' :: _ => none
    | name => some (String.mk name)

/-! ## Sample inputs -/

/-- Type `Widget` of package `example.com/api/v1`. -/
def widgetType : TypePtr :=
  ⟨1, ⟨⟨"example.com/api/v1", "Widget"⟩, [], []⟩⟩

/-- A second descriptor of `Widget`, stored elsewhere. -/
def widgetCopy : TypePtr :=
  ⟨2, ⟨⟨"example.com/api/v1", "Widget"⟩, [], []⟩⟩

/-- Type `Event` of package `k8s.io/apis/events/v1beta1`. -/
def eventType : TypePtr :=
  ⟨3, ⟨⟨"k8s.io/apis/events/v1beta1", "Event"⟩, [], []⟩⟩

/-- Type `Endpoints` of package `k8s.io/api/core/v1`. -/
def endpointsType : TypePtr :=
  ⟨4, ⟨⟨"k8s.io/api/core/v1", "Endpoints"⟩, [], []⟩⟩

/-- A type whose comment carries a tag the sample parser rejects. -/
def brokenType : TypePtr :=
  ⟨5, ⟨⟨"example.com/api/v1", "Broken"⟩, ["+genclient:method"], []⟩⟩

/-- A universe that resolves every name to a descriptor with that name. -/
def sampleUniverse : Universe :=
  ⟨fun n => ⟨100, ⟨n, [], []⟩⟩, fun n => ⟨101, ⟨n, [], []⟩⟩, fun n => ⟨102, ⟨n, [], []⟩⟩⟩

/-- A context with no name systems of its own. -/
def sampleContext : Context :=
  ⟨[], sampleUniverse⟩

/-- A stand-in environment, errors being strings: the parser rejects the line
`+genclient:method` and reads `+genclient:nonNamespaced`; the template engine
appends the template text to the destination. -/
def sampleEnv : Env String where
  ParseClientGenTags := fun lines =>
    if lines.contains "+genclient:method" then .error "bad tag"
    else .ok ⟨lines.contains "+genclient:nonNamespaced"⟩
  VersionString := fun v => v
  NewRawNamer := fun _ _ => ⟨fun t => t.elem.Name.Name⟩
  NewTagOverrideNamer := fun _ fallback => fallback
  Do := fun sw format _ => ⟨sw.w ++ format, sw.context, sw.left, sw.right, sw.err⟩
  apiScheme := ⟨"k8s.io/kubernetes/pkg/api/legacyscheme", "Scheme"⟩
  cacheIndexers := ⟨"k8s.io/client-go/tools/cache", "Indexers"⟩
  cacheListWatch := ⟨"k8s.io/client-go/tools/cache", "ListWatch"⟩
  cacheMetaNamespaceIndexFunc := ⟨"k8s.io/client-go/tools/cache", "MetaNamespaceIndexFunc"⟩
  cacheNamespaceIndex := ⟨"k8s.io/client-go/tools/cache", "NamespaceIndex"⟩
  cacheNewSharedIndexInformer := ⟨"k8s.io/client-go/tools/cache", "NewSharedIndexInformer"⟩
  cacheSharedIndexInformer := ⟨"k8s.io/client-go/tools/cache", "SharedIndexInformer"⟩
  listOptions := ⟨"k8s.io/kubernetes/pkg/apis/core", "ListOptions"⟩
  metav1NamespaceAll := ⟨"k8s.io/apimachinery/pkg/apis/meta/v1", "NamespaceAll"⟩
  runtimeObject := ⟨"k8s.io/apimachinery/pkg/runtime", "Object"⟩
  timeDuration := ⟨"time", "Duration"⟩
  v1ListOptions := ⟨"k8s.io/apimachinery/pkg/apis/meta/v1", "ListOptions"⟩
  watchInterface := ⟨"k8s.io/apimachinery/pkg/watch", "Interface"⟩

/-- A generator bound to `Widget`. -/
def sampleGenerator : injectionGenerator where
  outputPackage := "example.com/client/injection/informers/api/v1/widget"
  groupPkgName := "api"
  groupVersion := ⟨"api", "v1"⟩
  groupGoName := "api"
  typeToGenerate := widgetType
  imports := ⟨[]⟩
  clientSetPackage := "example.com/client/clientset/versioned"
  internalInterfacesPackage := "example.com/client/informers/externalversions/internalinterfaces"
  typedInformerPackage := "example.com/client/informers/externalversions/api/v1"
  groupInformerFactoryPackage := "example.com/client/injection/informers/api/factory"

/-! ## Lookups in maps -/

theorem mapIndex_eq_none_of_no_key {V : Type} (m : GoMap V) (key : String)
    (h : ∀ e ∈ m, e.1 ≠ key) : mapIndex m key = none := by
  induction m with
  | nil => rfl
  | cons e rest ih =>
    obtain ⟨k, v⟩ := e
    have hk : k ≠ key := h (k, v) (List.mem_cons_self _ _)
    have hrest : ∀ e ∈ rest, e.1 ≠ key := fun e he => h e (List.mem_cons_of_mem _ he)
    simp [mapIndex, hk, ih hrest]

theorem mapIndex_mem {V : Type} (m : GoMap V) (key : String) (v : V)
    (h : mapIndex m key = some v) : (key, v) ∈ m := by
  induction m with
  | nil => simp [mapIndex] at h
  | cons e rest ih =>
    obtain ⟨k, w⟩ := e
    by_cases hk : k = key
    · simp [mapIndex, hk] at h
      simp [hk, h]
    · simp [mapIndex, hk] at h
      exact List.mem_cons_of_mem _ (ih h)

/-! ## The exception namer -/

/-- C1: when the exception table of an `ExceptionNamer` has an entry under the
key computed for `t`, `Name` returns the value of that entry: the value is one
stored in the table under exactly that key, and the same value is returned
whatever delegate the namer carries. -/
theorem exceptionNamer_name_of_entry (n : ExceptionNamer) (t : TypePtr) (v : String)
    (h : mapIndex n.Exceptions (n.KeyFunc t) = some v) :
    n.Name t = v ∧ (n.KeyFunc t, v) ∈ n.Exceptions ∧
      ∀ d : Namer, ExceptionNamer.Name ⟨n.Exceptions, n.KeyFunc, d⟩ t = v := by
  refine ⟨?_, mapIndex_mem _ _ _ h, ?_⟩
  · simp [ExceptionNamer.Name, h]
  · intro d
    simp [ExceptionNamer.Name, h]

/-- Witness of C1: an entry under the doubled key of `Event` overrides the
delegate, here one that would answer `"Delegated"`. -/
theorem exceptionNamer_name_of_entry_witness :
    ExceptionNamer.Name
      ⟨[("k8s.io/apis/events/v1beta1.EventEvent", "EventResource")],
        publicPluralNamer.KeyFunc, ⟨fun _ => "Delegated"⟩⟩ eventType = "EventResource" :=
  (exceptionNamer_name_of_entry
    ⟨[("k8s.io/apis/events/v1beta1.EventEvent", "EventResource")],
      publicPluralNamer.KeyFunc, ⟨fun _ => "Delegated"⟩⟩ eventType "EventResource"
    (by decide)).1

/-- C2: when no entry of the exception table has a key equal to the key
computed for `t`, `Name` is the delegate's name for `t`; entries under other
keys, prefixes of the computed key included, play no part. -/
theorem exceptionNamer_name_of_no_entry (n : ExceptionNamer) (t : TypePtr)
    (h : ∀ e ∈ n.Exceptions, e.1 ≠ n.KeyFunc t) :
    mapIndex n.Exceptions (n.KeyFunc t) = none ∧ n.Name t = n.Delegate.Name t := by
  have hnone := mapIndex_eq_none_of_no_key n.Exceptions (n.KeyFunc t) h
  exact ⟨hnone, by simp [ExceptionNamer.Name, hnone]⟩

/-- Witness of C2: the table holds an entry whose key is a proper prefix of the
computed key `example.com/api/v1.WidgetWidget`; the delegate answers. -/
theorem exceptionNamer_name_of_no_entry_witness :
    ExceptionNamer.Name
      ⟨[("example.com/api/v1.Widget", "WidgetResource")],
        publicPluralNamer.KeyFunc, ⟨fun _ => "Delegated"⟩⟩ widgetType = "Delegated" :=
  (exceptionNamer_name_of_no_entry
    ⟨[("example.com/api/v1.Widget", "WidgetResource")],
      publicPluralNamer.KeyFunc, ⟨fun _ => "Delegated"⟩⟩ widgetType
    (by decide)).2

/-- C3: the key function of the `publicPlural` namer that `Namers` builds
returns the package path, a dot, and the base name twice. -/
theorem publicPlural_keyFunc {ε : Type} (env : Env ε) (g : injectionGenerator) (c : Context)
    (t : TypePtr) :
    mapIndex (Namers env g c) "publicPlural" = some publicPluralNamer.toNamer ∧
      publicPluralNamer.KeyFunc t
        = t.elem.Name.Package ++ "." ++ t.elem.Name.Name ++ t.elem.Name.Name ∧
      (publicPluralNamer.KeyFunc t).data
        = t.elem.Name.Package.data ++ '.' :: (t.elem.Name.Name.data ++ t.elem.Name.Name.data) := by
  refine ⟨by simp [Namers, mapIndex], rfl, ?_⟩
  simp [publicPluralNamer]

/-- C4, the code at the documented example: with the entry
`"k8s.io/apis/events/v1beta1.Event": "EventResource"` in the table of the
`publicPlural` namer, the key computed for `Event` is
`k8s.io/apis/events/v1beta1.EventEvent`, the entry is not found, and the name
is the delegate's `Events`, not `EventResource`. -/
theorem documented_exception_not_applied :
    publicPluralNamer.KeyFunc eventType = "k8s.io/apis/events/v1beta1.EventEvent" ∧
      mapIndex [("k8s.io/apis/events/v1beta1.Event", "EventResource")]
        (publicPluralNamer.KeyFunc eventType) = none ∧
      ExceptionNamer.Name
        ⟨[("k8s.io/apis/events/v1beta1.Event", "EventResource")],
          publicPluralNamer.KeyFunc, publicPluralNamer.Delegate⟩ eventType = "Events" ∧
      ExceptionNamer.Name
        ⟨[("k8s.io/apis/events/v1beta1.Event", "EventResource")],
          publicPluralNamer.KeyFunc, publicPluralNamer.Delegate⟩ eventType ≠ "EventResource" := by
  decide

/-! ## Building the template arguments -/

/-- C5: when the comment lines of `t` parse into `tags`, `GenerateType` renders
the template with the arguments `templateArgs`, whose `namespaced` entry is
the negation of `tags.NonNamespaced`: `true` when the non-namespaced directive
is absent, `false` when it is present. -/
theorem generateType_namespaced {ε : Type} (env : Env ε) (g : injectionGenerator)
    (c : Context) (t : TypePtr) (w : Writer) (tags : Tags)
    (h : env.ParseClientGenTags (t.elem.SecondClosestCommentLines ++ t.elem.CommentLines)
      = .ok tags) :
    GenerateType env g c t w
        = ((env.Do (NewSnippetWriter w c "\x7b\x7b" "\x7d\x7d") injectionInformer
              (templateArgs env g c t tags)).Error,
           (env.Do (NewSnippetWriter w c "\x7b\x7b" "\x7d\x7d") injectionInformer
              (templateArgs env g c t tags)).w) ∧
      mapIndex (templateArgs env g c t tags) "namespaced"
        = some (Value.bool (!tags.NonNamespaced)) ∧
      (tags.NonNamespaced = false →
        mapIndex (templateArgs env g c t tags) "namespaced" = some (Value.bool true)) ∧
      (tags.NonNamespaced = true →
        mapIndex (templateArgs env g c t tags) "namespaced" = some (Value.bool false)) := by
  have hns : mapIndex (templateArgs env g c t tags) "namespaced"
      = some (Value.bool (!tags.NonNamespaced)) := by
    simp [templateArgs, mapIndex]
  refine ⟨?_, hns, ?_, ?_⟩
  · simp [GenerateType, h]
  · intro hf
    simp [hns, hf]
  · intro ht
    simp [hns, ht]

/-- Witness of C5: `Widget` carries no directive, and its context is
namespaced. -/
theorem generateType_namespaced_witness :
    mapIndex (templateArgs sampleEnv sampleGenerator sampleContext widgetType ⟨false⟩)
      "namespaced" = some (Value.bool true) :=
  (generateType_namespaced sampleEnv sampleGenerator sampleContext widgetType "" ⟨false⟩
    rfl).2.2.1 rfl

/-- C6: when parsing the comment lines of `t` fails with `e`, `GenerateType`
returns `e` and leaves the destination as it was; the template engine has no
part in the result. -/
theorem generateType_parse_error {ε : Type} (env : Env ε) (g : injectionGenerator)
    (c : Context) (t : TypePtr) (w : Writer) (e : ε)
    (h : env.ParseClientGenTags (t.elem.SecondClosestCommentLines ++ t.elem.CommentLines)
      = .error e) :
    GenerateType env g c t w = (some e, w) := by
  simp [GenerateType, h, NewSnippetWriter]

/-- Witness of C6: the sample parser rejects the comment of `brokenType`; the
error comes back and the destination still holds what it held. -/
theorem generateType_parse_error_witness :
    GenerateType sampleEnv sampleGenerator sampleContext brokenType "// header\n"
      = (some "bad tag", "// header\n") :=
  generateType_parse_error sampleEnv sampleGenerator sampleContext brokenType "// header\n"
    "bad tag" rfl

/-! ## Filtering -/

/-- C7: `Filter` answers `true` exactly for the pointer the generator is bound
to; it answers `false` for a descriptor stored elsewhere even when it carries
the same package and name, and the context plays no part. -/
theorem filter_iff_bound_type (g : injectionGenerator) (c : Context) (t : TypePtr) :
    (Filter g c t = true ↔ t.addr = g.typeToGenerate.addr) ∧
      (t.addr ≠ g.typeToGenerate.addr → t.elem = g.typeToGenerate.elem →
        Filter g c t = false) ∧
      (∀ c2 : Context, Filter g c2 t = Filter g c t) := by
  refine ⟨by simp [Filter], ?_, fun _ => rfl⟩
  intro hne _
  simp [Filter, hne]

/-- Witness of C7: a second descriptor of `Widget` is filtered out by the
generator bound to the first. -/
theorem filter_iff_bound_type_witness :
    Filter sampleGenerator sampleContext widgetCopy = false ∧
      Filter sampleGenerator sampleContext widgetType = true :=
  ⟨(filter_iff_bound_type sampleGenerator sampleContext widgetCopy).2.1 (by decide) (by decide),
   (filter_iff_bound_type sampleGenerator sampleContext widgetType).1.2 (by decide)⟩

/-! ## The name systems -/

/-- C8: the `publicPlural` name system of `Namers` finds no exception for any
type, so it answers with the capitalized plural of its delegate; for `Widget`
of `example.com/api/v1` that is `Widgets`. -/
theorem publicPlural_is_delegate {ε : Type} (env : Env ε) (g : injectionGenerator)
    (c : Context) (t : TypePtr) :
    mapIndex (Namers env g c) "publicPlural" = some publicPluralNamer.toNamer ∧
      mapIndex publicPluralNamer.Exceptions (publicPluralNamer.KeyFunc t) = none ∧
      publicPluralNamer.toNamer.Name t = (NewPublicPluralNamer pluralExceptions).Name t ∧
      (t.elem.Name = ⟨"example.com/api/v1", "Widget"⟩ →
        publicPluralNamer.toNamer.Name t = "Widgets") := by
  have hdel : publicPluralNamer.toNamer.Name t
      = (NewPublicPluralNamer pluralExceptions).Name t := by
    simp [ExceptionNamer.toNamer, ExceptionNamer.Name, publicPluralNamer, mapIndex,
      pluralNamer.toNamer]
  refine ⟨by simp [Namers, mapIndex], by simp [publicPluralNamer, mapIndex], hdel, ?_⟩
  intro hname
  rw [hdel]
  simp only [pluralNamer.Name, hname]
  decide

/-- Witness of C8: `Widget` of `example.com/api/v1` is named `Widgets`. -/
theorem publicPlural_is_delegate_witness :
    publicPluralNamer.toNamer.Name widgetType = "Widgets" :=
  (publicPlural_is_delegate sampleEnv sampleGenerator sampleContext widgetType).2.2.2 rfl

/-- C9: for a type whose base name is `Endpoints`, the lowercase plural namer
of `Namers` answers `endpoints`, not `endpointss`, and the `publicPlural`
namer answers `Endpoints`. -/
theorem endpoints_plural (t : TypePtr) (h : t.elem.Name.Name = "Endpoints") :
    lowercaseNamer.Name t = "endpoints" ∧ lowercaseNamer.Name t ≠ "endpointss" ∧
      publicPluralNamer.Name t = "Endpoints" := by
  have hlow : lowercaseNamer.Name t = "endpoints" := by
    simp only [pluralNamer.Name, h]
    decide
  have hpub : publicPluralNamer.Name t = "Endpoints" := by
    simp only [ExceptionNamer.Name, publicPluralNamer, mapIndex, pluralNamer.toNamer,
      pluralNamer.Name, h]
    decide
  refine ⟨hlow, ?_, hpub⟩
  rw [hlow]
  decide

/-- Witness of C9: `Endpoints` of `k8s.io/api/core/v1`. -/
theorem endpoints_plural_witness :
    lowercaseNamer.Name endpointsType = "endpoints" ∧
      lowercaseNamer.Name endpointsType ≠ "endpointss" ∧
      publicPluralNamer.Name endpointsType = "Endpoints" :=
  endpoints_plural endpointsType rfl

/-! ## The template and its names -/

/-- C10: the placeholders the template `injectionInformer` reads are
`injectionRegisterInformer`, `controllerInformer`, `factoryGet`, `group`,
`version`, `type` and `informersTypedInformer`, each a key of the arguments
`GenerateType` builds; the name systems it pipes through are `raw` and
`publicPlural`, each a key of the name systems of `Namers`. -/
theorem template_names_bound {ε : Type} (env : Env ε) (g : injectionGenerator)
    (c : Context) (t : TypePtr) (tags : Tags) :
    templatePlaceholders injectionInformer
        = ["injectionRegisterInformer", "controllerInformer", "factoryGet", "group",
           "version", "type", "informersTypedInformer", "informersTypedInformer"] ∧
      templateFuncs injectionInformer
        = ["raw", "raw", "raw", "publicPlural", "raw", "raw"] ∧
      (∀ p ∈ templatePlaceholders injectionInformer,
        (mapIndex (templateArgs env g c t tags) p).isSome = true) ∧
      (∀ f ∈ templateFuncs injectionInformer,
        (mapIndex (Namers env g c) f).isSome = true) := by
  have hp : templatePlaceholders injectionInformer
      = ["injectionRegisterInformer", "controllerInformer", "factoryGet", "group",
         "version", "type", "informersTypedInformer", "informersTypedInformer"] := by
    decide
  have hf : templateFuncs injectionInformer
      = ["raw", "raw", "raw", "publicPlural", "raw", "raw"] := by
    decide
  refine ⟨hp, hf, ?_, ?_⟩
  · rw [hp]
    intro p hmem
    simp only [List.mem_cons, List.mem_singleton, List.not_mem_nil, or_false] at hmem
    rcases hmem with h | h | h | h | h | h | h | h <;> subst h <;>
      simp [templateArgs, mapIndex]
  · rw [hf]
    intro f hmem
    simp only [List.mem_cons, List.mem_singleton, List.not_mem_nil, or_false] at hmem
    rcases hmem with h | h | h | h | h | h <;> subst h <;> simp [Namers, mapIndex]

/-- Witness of C10: the placeholder `type` and the name system `publicPlural`
at the sample generator. -/
theorem template_names_bound_witness :
    (mapIndex (templateArgs sampleEnv sampleGenerator sampleContext widgetType ⟨false⟩)
        "type").isSome = true ∧
      (mapIndex (Namers sampleEnv sampleGenerator sampleContext) "publicPlural").isSome = true :=
  ⟨(template_names_bound sampleEnv sampleGenerator sampleContext widgetType ⟨false⟩).2.2.1
      "type" (by decide),
   (template_names_bound sampleEnv sampleGenerator sampleContext widgetType ⟨false⟩).2.2.2
      "publicPlural" (by decide)⟩

end Generators
